import Mathlib

/-!
Verification of the authentication/session lifecycle and the role-based
view router of the Clientus single-page application
(`frontend/src/App.js`, components `AuthProvider` and `AppRouter`).

The embedding models:
  * the React component state of `AuthProvider`: `user` (the fetched
    profile), `userType` (the session role string) and `loading`;
  * the browser durable storage entries `localStorage['token']` and
    `localStorage['userType']` as `lsToken` and `lsUserType`;
  * the shared HTTP client's bearer credential
    `axios.defaults.headers.common['Authorization']` as `authHeader`.
The backend is an oracle: a function from endpoint (and request body) to
an `Except` outcome, so one run of an operation is a pure state
transformer.  Each operation additionally returns the list of HTTP
requests it issued, so absence of network traffic is a provable fact.
JavaScript string truthiness (`null` and the empty string are falsy) is
modelled explicitly where the source relies on it.
-/

/-- Profile record returned by the backend (`/auth/me`, `/admin/auth/me`).
Opaque from the client's perspective; only displayed. -/
structure UserProfile where
  name : String
  role : String
deriving DecidableEq, Repr

/-- The complete mutable state touched by `AuthProvider`: React state
(`user`, `userType`, `loading`), durable storage (`lsToken`,
`lsUserType`) and the HTTP client's bearer credential (`authHeader`). -/
structure SessionState where
  user : Option UserProfile
  userType : Option String
  loading : Bool
  lsToken : Option String
  lsUserType : Option String
  authHeader : Option String
deriving DecidableEq, Repr

/-- An HTTP request issued by the session manager. -/
inductive HttpRequest where
  | get (endpoint : String)
  | post (endpoint : String) (email : String) (password : String)
deriving DecidableEq, Repr

/-- Derived session status, as in the spec's data model: `loading` while
initialization is in flight, `authenticated` once a profile is stored,
`anonymous` otherwise. -/
inductive SessionStatus where
  | loading
  | authenticated
  | anonymous
deriving DecidableEq, Repr

def statusOf (s : SessionState) : SessionStatus :=
  if s.loading then .loading
  else if s.user.isSome then .authenticated
  else .anonymous

/-- JavaScript truthiness of a nullable string: `null` and `""` are falsy. -/
def jsTruthyStr : Option String → Bool
  | none => false
  | some s => s != ""

/-- Endpoint selection in `fetchUserProfile`:
`type === 'admin' ? '/admin/auth/me' : '/auth/me'`. -/
def profileEndpoint (type : String) : String :=
  if type == "admin" then "/admin/auth/me" else "/auth/me"

/-- Endpoint selection in `login`:
`type === 'admin' ? '/admin/auth/login' : '/auth/login'`. -/
def loginEndpoint (type : String) : String :=
  if type == "admin" then "/admin/auth/login" else "/auth/login"

/-- `fetchUserProfile(type)` (App.js lines 33-46).  `g` is the backend's
response to an authenticated GET on a given endpoint.  On success the
profile is stored (`setUser`); on any failure the two durable keys are
removed and the bearer credential deleted — the React state `user` and
`userType` are not touched by the catch block.  The `finally` block sets
`loading` to `false` on both paths. -/
def fetchUserProfile (g : String → Except Unit UserProfile)
    (type : String) (s : SessionState) : SessionState × List HttpRequest :=
  match g (profileEndpoint type) with
  | .ok p =>
      ({ s with user := some p, loading := false }, [.get (profileEndpoint type)])
  | .error _ =>
      ({ s with lsToken := none, lsUserType := none, authHeader := none,
                loading := false }, [.get (profileEndpoint type)])

/-- `login(email, password, type)` (App.js lines 48-65).  `p` is the
backend's response to the login POST (the `access_token` of the response
body on success).  On POST success the token and role are persisted, the
bearer credential attached and the session role set, then
`fetchUserProfile` is awaited and `true` returned.  Any failure of the
POST is caught and reported as `false` with no state change. -/
def login (p : String → String → String → Except Unit String)
    (g : String → Except Unit UserProfile)
    (email password type : String) (s : SessionState) :
    Bool × SessionState × List HttpRequest :=
  match p (loginEndpoint type) email password with
  | .error _ => (false, s, [.post (loginEndpoint type) email password])
  | .ok access_token =>
      let s1 := { s with
        lsToken := some access_token,
        lsUserType := some type,
        authHeader := some ("Bearer " ++ access_token),
        userType := some type }
      let r := fetchUserProfile g type s1
      (true, r.1, .post (loginEndpoint type) email password :: r.2)

/-- `logout()` (App.js lines 67-73): removes both durable keys, deletes
the bearer credential, and resets `user` and `userType` to `null`.
Purely local — no request is issued. -/
def logout (s : SessionState) : SessionState × List HttpRequest :=
  ({ s with lsToken := none, lsUserType := none, authHeader := none,
            user := none, userType := none }, [])

/-- The mount effect of `AuthProvider` (App.js lines 21-31): read the two
durable keys; if both are truthy, attach the bearer credential, set the
session role and fetch the profile; otherwise just end `loading`. -/
def initSession (g : String → Except Unit UserProfile)
    (s : SessionState) : SessionState × List HttpRequest :=
  match s.lsToken, s.lsUserType with
  | some token, some storedUserType =>
      if token != "" && storedUserType != "" then
        let s1 := { s with
          authHeader := some ("Bearer " ++ token),
          userType := some storedUserType }
        fetchUserProfile g storedUserType s1
      else
        ({ s with loading := false }, [])
  | _, _ => ({ s with loading := false }, [])

/-- The state at process start before the mount effect runs, with the
given durable storage contents. -/
def startState (lsToken lsUserType : Option String) : SessionState :=
  { user := none, userType := none, loading := true,
    lsToken := lsToken, lsUserType := lsUserType, authHeader := none }

/-- The initial anonymous state: nothing in memory, nothing durable, no
credential, not loading. -/
def anonState : SessionState :=
  { user := none, userType := none, loading := false,
    lsToken := none, lsUserType := none, authHeader := none }

/-- States reachable from the initial anonymous state by any sequence of
the four session operations, under arbitrary backend behaviour and
arguments. -/
inductive Reachable : SessionState → Prop where
  | base : Reachable anonState
  | initStep (s : SessionState) (g : String → Except Unit UserProfile) :
      Reachable s → Reachable (initSession g s).1
  | loginStep (s : SessionState) (p : String → String → String → Except Unit String)
      (g : String → Except Unit UserProfile) (email password type : String) :
      Reachable s → Reachable (login p g email password type s).2.1
  | fetchStep (s : SessionState) (g : String → Except Unit UserProfile)
      (type : String) :
      Reachable s → Reachable (fetchUserProfile g type s).1
  | logoutStep (s : SessionState) :
      Reachable s → Reachable (logout s).1

/-- `AppRouter` (App.js lines 121-151) as a pure function of the URL
path, the session role and the loading flag.  `Loading` is checked
first; then the `/admin` path prefix selects the admin pair, and the
role string selects login versus portal within each pair. -/
inductive View where
  | LoadingView
  | AdminLogin
  | AdminDashboard
  | ClientLogin
  | ClientApp
deriving DecidableEq, Repr

/-- The admin-area test `window.location.pathname.startsWith('/admin')`
(App.js line 125), stated on the character sequence of the path. -/
def isAdminPath (pathname : String) : Bool :=
  "/admin".data.isPrefixOf pathname.data

def appRouter (pathname : String) (userType : Option String)
    (loading : Bool) : View :=
  if loading then .LoadingView
  else if isAdminPath pathname then
    if !(jsTruthyStr userType) || userType != some "admin" then .AdminLogin
    else .AdminDashboard
  else
    if !(jsTruthyStr userType) || userType != some "client" then .ClientLogin
    else .ClientApp

/-- A backend whose authenticated GETs all fail (stale or rejected
token). -/
def gReject : String → Except Unit UserProfile := fun _ => .error ()

/-- A backend accepting every login POST with a fixed token. -/
def pAccept : String → String → String → Except Unit String :=
  fun _ _ _ => .ok "tok123"

/-- A backend rejecting every login POST. -/
def pDeny : String → String → String → Except Unit String :=
  fun _ _ _ => .error ()

/-- Claim C6: after `logout()`, regardless of the prior session state,
durable storage holds neither the token key nor the role key, the HTTP
client carries no bearer credential, the session is anonymous with
profile and role absent, and no network request is issued. -/
theorem logout_clears_all_no_network (s : SessionState) :
    (logout s).1.lsToken = none ∧ (logout s).1.lsUserType = none ∧
    (logout s).1.authHeader = none ∧ (logout s).1.user = none ∧
    (logout s).1.userType = none ∧ (logout s).2 = [] := by
  simp [logout]

/-- Claim C7: `logout()` is idempotent — running it twice from any prior
state produces exactly the same end state (session, durable storage and
HTTP-client credential) as running it once. -/
theorem logout_idempotent (s : SessionState) :
    logout (logout s).1 = logout s := rfl

/-- Claim C8: every run of `fetchUserProfile`, whatever the backend
outcome, ends with `loading = false` — the `finally` block fires on both
the success and the failure path. -/
theorem fetchProfile_ends_loading (g : String → Except Unit UserProfile)
    (type : String) (s : SessionState) :
    (fetchUserProfile g type s).1.loading = false := by
  cases hg : g (profileEndpoint type) <;> simp [fetchUserProfile, hg]

/-- Claim C3: when the backend rejects the login POST, `login` returns
`false`, mutates neither durable storage nor any session field, and the
only network traffic is the failed POST itself; the failure is caught,
not rethrown (the function is total and yields a boolean). -/
theorem login_failure_no_mutation
    (p : String → String → String → Except Unit String)
    (g : String → Except Unit UserProfile)
    (email password type : String) (s : SessionState)
    (h : p (loginEndpoint type) email password = .error ()) :
    login p g email password type s =
      (false, s, [.post (loginEndpoint type) email password]) := by
  simp [login, h]

theorem login_failure_no_mutation_witness :
    pDeny (loginEndpoint "client") "a@b.c" "pw" = Except.error () ∧
    login pDeny gReject "a@b.c" "pw" "client" anonState =
      (false, anonState, [.post (loginEndpoint "client") "a@b.c" "pw"]) :=
  ⟨rfl, login_failure_no_mutation pDeny gReject "a@b.c" "pw" "client" anonState rfl⟩

/-- Claim C9: when the login POST succeeds but the subsequent profile
GET fails, `login` still returns `true` (the profile-fetch failure is
swallowed inside `fetchUserProfile`), yet the end state has both durable
keys cleared — success is reported while storage has been wiped. -/
theorem login_ok_fetch_fail_reports_true
    (p : String → String → String → Except Unit String)
    (g : String → Except Unit UserProfile)
    (email password type tok : String) (s : SessionState)
    (hp : p (loginEndpoint type) email password = .ok tok)
    (hg : g (profileEndpoint type) = .error ()) :
    (login p g email password type s).1 = true ∧
    (login p g email password type s).2.1.lsToken = none ∧
    (login p g email password type s).2.1.lsUserType = none := by
  simp [login, fetchUserProfile, hp, hg]

theorem login_ok_fetch_fail_reports_true_witness :
    pAccept (loginEndpoint "client") "a@b.c" "pw" = Except.ok "tok123" ∧
    gReject (profileEndpoint "client") = Except.error () ∧
    ((login pAccept gReject "a@b.c" "pw" "client" anonState).1 = true ∧
     (login pAccept gReject "a@b.c" "pw" "client" anonState).2.1.lsToken = none ∧
     (login pAccept gReject "a@b.c" "pw" "client" anonState).2.1.lsUserType = none) :=
  ⟨rfl, rfl,
   login_ok_fetch_fail_reports_true pAccept gReject "a@b.c" "pw" "client" "tok123"
     anonState rfl rfl⟩

/-- Claim C4: with status not loading and a path in the admin area, the
router yields `AdminLogin` exactly when the session role is absent or
different from `"admin"` (a `"client"` role included), and
`AdminDashboard` exactly when the role is `"admin"`. -/
theorem router_admin_path_cases (pathname : String) (ut : Option String)
    (h : isAdminPath pathname = true) :
    (appRouter pathname ut false = .AdminLogin ↔ ut ≠ some "admin") ∧
    (appRouter pathname ut false = .AdminDashboard ↔ ut = some "admin") := by
  rcases ut with _ | u
  · simp [appRouter, h, jsTruthyStr]
  · by_cases hu : u = "admin"
    · subst hu
      simp [appRouter, h, jsTruthyStr]
    · simp [appRouter, h, jsTruthyStr, hu]

theorem router_admin_path_cases_witness :
    isAdminPath "/admin" = true ∧
    ((appRouter "/admin" (some "client") false = .AdminLogin ↔
        (some "client" : Option String) ≠ some "admin") ∧
     (appRouter "/admin" (some "client") false = .AdminDashboard ↔
        (some "client" : Option String) = some "admin")) :=
  ⟨by decide, router_admin_path_cases "/admin" (some "client") (by decide)⟩

/-- Claim C5: with status not loading and a path outside the admin area,
the router yields `ClientLogin` exactly when the session role is absent
or different from `"client"` (an `"admin"` role included), and the
client portal (`ClientApp`) exactly when the role is `"client"`. -/
theorem router_client_path_cases (pathname : String) (ut : Option String)
    (h : isAdminPath pathname = false) :
    (appRouter pathname ut false = .ClientLogin ↔ ut ≠ some "client") ∧
    (appRouter pathname ut false = .ClientApp ↔ ut = some "client") := by
  rcases ut with _ | u
  · simp [appRouter, h, jsTruthyStr]
  · by_cases hu : u = "client"
    · subst hu
      simp [appRouter, h, jsTruthyStr]
    · simp [appRouter, h, jsTruthyStr, hu]

theorem router_client_path_cases_witness :
    isAdminPath "/" = false ∧
    ((appRouter "/" (some "admin") false = .ClientLogin ↔
        (some "admin" : Option String) ≠ some "client") ∧
     (appRouter "/" (some "admin") false = .ClientApp ↔
        (some "admin" : Option String) = some "client")) :=
  ⟨by decide, router_client_path_cases "/" (some "admin") (by decide)⟩

/-- Claim C10: when durable storage holds exactly one of the two keys at
startup, the mount effect goes straight to anonymous — no bearer
credential attached, no profile request issued, durable storage left
untouched, so the lone key survives. -/
theorem init_single_key_anonymous (g : String → Except Unit UserProfile)
    (lsT lsU : Option String)
    (h : (lsT ≠ none ∧ lsU = none) ∨ (lsT = none ∧ lsU ≠ none)) :
    (initSession g (startState lsT lsU)).1.authHeader = none ∧
    (initSession g (startState lsT lsU)).1.lsToken = lsT ∧
    (initSession g (startState lsT lsU)).1.lsUserType = lsU ∧
    (initSession g (startState lsT lsU)).2 = [] ∧
    statusOf (initSession g (startState lsT lsU)).1 = .anonymous := by
  rcases h with ⟨hT, hU⟩ | ⟨hT, hU⟩
  · subst hU
    rcases lsT with _ | t
    · exact absurd rfl hT
    · simp [initSession, startState, statusOf]
  · subst hT
    rcases lsU with _ | u
    · exact absurd rfl hU
    · simp [initSession, startState, statusOf]

theorem init_single_key_anonymous_witness :
    ((some "t" ≠ (none : Option String) ∧ (none : Option String) = none) ∨
      (some "t" = (none : Option String) ∧ (none : Option String) ≠ none)) ∧
    ((initSession gReject (startState (some "t") none)).1.authHeader = none ∧
     (initSession gReject (startState (some "t") none)).1.lsToken = some "t" ∧
     (initSession gReject (startState (some "t") none)).1.lsUserType = none ∧
     (initSession gReject (startState (some "t") none)).2 = [] ∧
     statusOf (initSession gReject (startState (some "t") none)).1 = .anonymous) :=
  ⟨Or.inl ⟨by decide, rfl⟩,
   init_single_key_anonymous gReject (some "t") none (Or.inl ⟨by decide, rfl⟩)⟩

/-- Claim C1 counterexample: scenario B run — durable pair
(token `"tok"`, role `"client"`) at startup, backend rejecting the
token.  The run clears durable storage, yet the in-memory session role
is still `"client"` at the end, so the claimed atomic clearing (session
role absent) is false on this input. -/
theorem staleToken_init_keeps_role :
    (initSession gReject (startState (some "tok") (some "client"))).1.userType
      = some "client" ∧
    (initSession gReject (startState (some "tok") (some "client"))).1.userType
      ≠ none := by
  constructor
  · rfl
  · decide

/-- Claim C1 amended: if the profile fetch fails for a session holding a
persisted token/role pair, the run removes both durable keys, deletes
the bearer credential and ends `loading`; the in-memory profile and
session role are left at their prior values — they are not cleared. -/
theorem fetchProfile_failure_clears_durable_only
    (g : String → Except Unit UserProfile) (type : String) (s : SessionState)
    (_hT : s.lsToken ≠ none) (_hU : s.lsUserType ≠ none)
    (hg : g (profileEndpoint type) = .error ()) :
    (fetchUserProfile g type s).1 =
      { s with lsToken := none, lsUserType := none, authHeader := none,
               loading := false } := by
  simp [fetchUserProfile, hg]

theorem fetchProfile_failure_clears_durable_only_witness :
    ((startState (some "tok") (some "client")).lsToken ≠ none ∧
     (startState (some "tok") (some "client")).lsUserType ≠ none ∧
     gReject (profileEndpoint "client") = Except.error ()) ∧
    (fetchUserProfile gReject "client" (startState (some "tok") (some "client"))).1 =
      { startState (some "tok") (some "client") with
          lsToken := none, lsUserType := none, authHeader := none,
          loading := false } :=
  ⟨⟨by decide, by decide, rfl⟩,
   fetchProfile_failure_clears_durable_only gReject "client"
     (startState (some "tok") (some "client")) (by decide) (by decide) rfl⟩

/-- Claim C2 counterexample: one `login` step from the initial anonymous
state — POST accepted, profile GET rejected — reaches a state whose
session role is present while the HTTP client carries no bearer
credential, so token-presence and role-presence disagree at the session
level on a reachable state. -/
theorem reachable_role_without_credential :
    Reachable (login pAccept gReject "a@b.c" "pw" "client" anonState).2.1 ∧
    (login pAccept gReject "a@b.c" "pw" "client" anonState).2.1.authHeader = none ∧
    (login pAccept gReject "a@b.c" "pw" "client" anonState).2.1.userType
      = some "client" :=
  ⟨Reachable.loginStep anonState pAccept gReject "a@b.c" "pw" "client" Reachable.base,
   rfl, rfl⟩

/-- Claim C2 amended: on every reachable state, durable storage
satisfies the claimed equivalence — the token key is present iff the
role key is present; at the session level only one direction holds — a
bearer credential is present only when the session role is present (a
profile-fetch failure can leave the role present with no credential). -/
theorem reachable_presence_invariant (s : SessionState) (h : Reachable s) :
    (s.lsToken.isSome = s.lsUserType.isSome) ∧
    (s.authHeader.isSome = true → s.userType.isSome = true) := by
  induction h with
  | base => simp [anonState]
  | initStep s g _ ih =>
      rcases hT : s.lsToken with _ | token
      · simpa [initSession, hT] using ih
      · rcases hU : s.lsUserType with _ | u
        · simp [hT, hU] at ih
        · by_cases htr : token != "" && u != ""
          · cases hg : g (profileEndpoint u) <;>
              simp [initSession, hT, hU, htr, fetchUserProfile, hg]
          · simpa [initSession, hT, hU, htr] using ih
  | loginStep s p g email password type _ ih =>
      cases hp : p (loginEndpoint type) email password with
      | error e => simpa [login, hp] using ih
      | ok tok =>
          cases hg : g (profileEndpoint type) <;>
            simp [login, hp, fetchUserProfile, hg]
  | fetchStep s g type _ ih =>
      cases hg : g (profileEndpoint type) with
      | error e => simp [fetchUserProfile, hg]
      | ok prof => simpa [fetchUserProfile, hg] using ih
  | logoutStep s _ _ => simp [logout]

theorem reachable_presence_invariant_witness :
    Reachable anonState ∧
    ((anonState.lsToken.isSome = anonState.lsUserType.isSome) ∧
     (anonState.authHeader.isSome = true → anonState.userType.isSome = true)) :=
  ⟨Reachable.base, reachable_presence_invariant anonState Reachable.base⟩
